import Mathlib

/-
Shallow embedding of src/arduino_smpte_clock.ino (final variant of the file,
lines 801-1068, plus the fps-parameterised timeUpdate of lines 720-743).

The program's mutable globals become the fields of a `SysState` record; each
interrupt handler / foreground function becomes a state-transition function.
`unsigned char` values are modelled as `Nat`: every arithmetic operation the
translated code performs stays below 256 on its reachable inputs, so no
wrap-around modelling is needed (increments are guarded by upper-bound
comparisons, nibble recombination is bounded by 15 + 16, shifts only shrink).
Hardware register writes (OCR2A) and serial output (UDR0) are modelled as an
output field and an output byte trace.
-/

namespace SmpteClock

/-- #define highLevel 82 -/
def highLevel : Nat := 82

/-- #define lowLevel 44 -/
def lowLevel : Nat := 44

/-- #define groundLevel 63 -/
def groundLevel : Nat := 63

/-- #define FPS 30 (the final variant fixes 30 fps; the menu variant reads the
same value from `selectedFPS`, which we expose as an explicit parameter). -/
def FPS : Nat := 30

/-- #define MIDI_TIME_CODE_QUARTER_FRAME 0xF1 -/
def MIDI_TIME_CODE_QUARTER_FRAME : Nat := 0xF1

/-- #define TRANSPORT_STOPPED 0 -/
def TRANSPORT_STOPPED : Nat := 0

/-- #define TRANSPORT_RUNNING 1 -/
def TRANSPORT_RUNNING : Nat := 1

/-- #define TRANSPORT_PAUSED 2 -/
def TRANSPORT_PAUSED : Nat := 2

/-- The eight-slot array `volatile unsigned char mtcQuarterFrame[8]`. -/
structure MtcSlots where
  slot0 : Nat
  slot1 : Nat
  slot2 : Nat
  slot3 : Nat
  slot4 : Nat
  slot5 : Nat
  slot6 : Nat
  slot7 : Nat
deriving DecidableEq, Repr

/-- Array write `mtcQuarterFrame[i] = v`.  The only call site guards the index
with `midiByte & 0x0F` under `(midiByte & 0xF0) == 0xF1`; indices above 7 would
be out-of-bounds writes in the C source, and the branch is in fact unreachable
(see `usart_rx_no_op`), so they are modelled as a no-op. -/
def MtcSlots.set (a : MtcSlots) (i v : Nat) : MtcSlots :=
  if i = 0 then { a with slot0 := v }
  else if i = 1 then { a with slot1 := v }
  else if i = 2 then { a with slot2 := v }
  else if i = 3 then { a with slot3 := v }
  else if i = 4 then { a with slot4 := v }
  else if i = 5 then { a with slot5 := v }
  else if i = 6 then { a with slot6 := v }
  else if i = 7 then { a with slot7 := v }
  else a

/-- The program's global mutable state.  `OCR2A` is the PWM compare register
(the line-level output); `midiOut` is the trace of bytes written to `UDR0` by
`sendMIDIByte` (oldest first). -/
@[ext]
structure SysState where
  hourCount : Nat
  minuteCount : Nat
  secondCount : Nat
  frameCount : Nat
  bitCount : Nat
  currentBit : Nat
  lastLevel : Nat
  clockStarted : Bool
  clockPaused : Bool
  transportState : Nat
  mtcQuarterFrame : MtcSlots
  OCR2A : Nat
  midiOut : List Nat
deriving DecidableEq, Repr

/-- The state right after reset: every global is zero / false (C statics). -/
def bootState : SysState :=
  { hourCount := 0, minuteCount := 0, secondCount := 0, frameCount := 0
  , bitCount := 0, currentBit := 0, lastLevel := 0
  , clockStarted := false, clockPaused := false
  , transportState := TRANSPORT_STOPPED
  , mtcQuarterFrame := ⟨0, 0, 0, 0, 0, 0, 0, 0⟩
  , OCR2A := 0, midiOut := [] }

/-- `void setLTCLevel(void)`, lines 1002-1032. -/
def setLTCLevel (s : SysState) : SysState :=
  if s.bitCount < 80 then
    let currentBit :=
      if s.bitCount < 32 then
        (s.frameCount >>> (s.bitCount % 4)) &&& 1
      else if s.bitCount < 40 then
        (s.secondCount >>> (s.bitCount - 32)) &&& 1
      else if s.bitCount < 48 then
        (s.minuteCount >>> (s.bitCount - 40)) &&& 1
      else
        (s.hourCount >>> (s.bitCount - 48)) &&& 1
    { s with
      OCR2A := if currentBit = 0 then lowLevel else highLevel
      currentBit := currentBit
      lastLevel := currentBit
      bitCount := s.bitCount + 1 }
  else
    { s with bitCount := 0, OCR2A := groundLevel }

/-- `void timeUpdate(void)`, lines 1035-1057 (and lines 720-743, where the
frame-rate bound is the global `selectedFPS` rather than the macro `FPS`;
`fps` is that bound, passed explicitly). -/
def timeUpdate (fps : Nat) (s : SysState) : SysState :=
  if s.frameCount < fps - 1 then
    { s with frameCount := s.frameCount + 1 }
  else
    if s.secondCount < 59 then
      { s with frameCount := 0, secondCount := s.secondCount + 1 }
    else
      if s.minuteCount < 59 then
        { s with frameCount := 0, secondCount := 0
               , minuteCount := s.minuteCount + 1 }
      else
        if s.hourCount < 23 then
          { s with frameCount := 0, secondCount := 0, minuteCount := 0
                 , hourCount := s.hourCount + 1 }
        else
          { s with frameCount := 0, secondCount := 0, minuteCount := 0
                 , hourCount := 0 }

/-- `ISR(TIMER1_COMPA_vect)`, lines 1060-1069: the fast (bit-cell) tick. -/
def TIMER1_COMPA_vect (fps : Nat) (s : SysState) : SysState :=
  if s.clockPaused = false ∧ s.clockStarted = true then
    let s1 := setLTCLevel s
    if s1.bitCount = 80 then timeUpdate fps s1 else s1
  else
    s

/-- `ISR(USART_RX_vect)`, lines 906-927: one incoming serial byte. -/
def USART_RX_vect (s : SysState) (midiByte : Nat) : SysState :=
  if midiByte &&& 0xF0 = MIDI_TIME_CODE_QUARTER_FRAME then
    let messageType := midiByte &&& 0x0F
    let frameData := midiByte >>> 4
    let t := { s with mtcQuarterFrame := s.mtcQuarterFrame.set messageType frameData }
    if messageType = 7 then
      { t with
        frameCount := (t.mtcQuarterFrame.slot1 &&& 0x0F) +
                      ((t.mtcQuarterFrame.slot0 &&& 0x01) <<< 4)
        secondCount := (t.mtcQuarterFrame.slot3 &&& 0x0F) +
                       ((t.mtcQuarterFrame.slot2 &&& 0x03) <<< 4)
        minuteCount := (t.mtcQuarterFrame.slot5 &&& 0x0F) +
                       ((t.mtcQuarterFrame.slot4 &&& 0x03) <<< 4)
        hourCount := (t.mtcQuarterFrame.slot7 &&& 0x0F) +
                     ((t.mtcQuarterFrame.slot6 &&& 0x01) <<< 4)
        clockStarted := true }
    else
      t
  else
    s

/-- `void sendMIDIByte(unsigned char byte)`: the busy-wait on `UDRE0` always
terminates under the serial-sink contract, after which the byte is written to
`UDR0`; modelled as appending the byte to the output trace. -/
def sendMIDIByte (s : SysState) (byte : Nat) : SysState :=
  { s with midiOut := s.midiOut ++ [byte] }

/-- `void sendMTCQuarterFrame()`, lines 872-903. -/
def sendMTCQuarterFrame (s : SysState) : SysState :=
  let frameNibble := s.frameCount &&& 0x0F
  let secondNibble := s.secondCount &&& 0x0F
  let minuteNibble := s.minuteCount &&& 0x0F
  let hourNibble := s.hourCount &&& 0x1F
  let s := sendMIDIByte s (MIDI_TIME_CODE_QUARTER_FRAME ||| 0x00)
  let s := sendMIDIByte s frameNibble
  let s := sendMIDIByte s (MIDI_TIME_CODE_QUARTER_FRAME ||| 0x01)
  let s := sendMIDIByte s (frameNibble >>> 4)
  let s := sendMIDIByte s (MIDI_TIME_CODE_QUARTER_FRAME ||| 0x02)
  let s := sendMIDIByte s secondNibble
  let s := sendMIDIByte s (MIDI_TIME_CODE_QUARTER_FRAME ||| 0x03)
  let s := sendMIDIByte s (secondNibble >>> 4)
  let s := sendMIDIByte s (MIDI_TIME_CODE_QUARTER_FRAME ||| 0x04)
  let s := sendMIDIByte s minuteNibble
  let s := sendMIDIByte s (MIDI_TIME_CODE_QUARTER_FRAME ||| 0x05)
  let s := sendMIDIByte s (minuteNibble >>> 4)
  let s := sendMIDIByte s (MIDI_TIME_CODE_QUARTER_FRAME ||| 0x06)
  let s := sendMIDIByte s hourNibble
  let s := sendMIDIByte s (MIDI_TIME_CODE_QUARTER_FRAME ||| 0x07)
  sendMIDIByte s (hourNibble >>> 4)

/-- One pass of `void loop()`, lines 962-999.  `startPressed` / `stopPressed`
stand for the sampled button levels `!(PIND & (1 << START_BUTTON_PIN))` and
`!(PIND & (1 << STOP_BUTTON_PIN))`. -/
def loopStep (startPressed stopPressed : Bool) (s : SysState) : SysState :=
  let s :=
    if startPressed then
      if s.transportState = TRANSPORT_STOPPED ∨ s.transportState = TRANSPORT_PAUSED then
        { s with transportState := TRANSPORT_RUNNING
               , clockStarted := true, clockPaused := false }
      else s
    else s
  let s :=
    if stopPressed then
      if s.transportState = TRANSPORT_RUNNING then
        { s with transportState := TRANSPORT_PAUSED, clockPaused := true }
      else
        { s with transportState := TRANSPORT_STOPPED
               , clockStarted := false, clockPaused := false }
    else s
  if s.transportState = TRANSPORT_RUNNING then
    if s.clockPaused = false then sendMTCQuarterFrame s else s
  else s

/-- The four timecode counter fields, as a tuple (hours, minutes, seconds,
frames): the view the claims about counter mutation talk about. -/
def tcOf (s : SysState) : Nat × Nat × Nat × Nat :=
  (s.hourCount, s.minuteCount, s.secondCount, s.frameCount)

/-- The timecode state `{hours=1, minutes=2, seconds=3, frames=4}` named by
the round-trip claim. -/
def tc1234State : SysState :=
  { bootState with hourCount := 1, minuteCount := 2, secondCount := 3, frameCount := 4 }

/-- The bit the LineLevelEncoder claim says a cursor position `c` selects:
for `c` in `[0,32)` bit `c % 4` of `frameCount`, in `[32,40)` bit `c - 32` of
`secondCount`, in `[40,48)` bit `c - 40` of `minuteCount`, in `[48,80)` bit
`c - 48` of `hourCount`.  Written from the claim text, to be compared with
`setLTCLevel`. -/
def claimSelectedBit (c h m sec f : Nat) : Bool :=
  if c < 32 then Nat.testBit f (c % 4)
  else if c < 40 then Nat.testBit sec (c - 32)
  else if c < 48 then Nat.testBit m (c - 40)
  else Nat.testBit h (c - 48)

/-- Validity of the four counter fields for a given frame rate, the data-model
invariant of the spec (`hours 0..23, minutes 0..59, seconds 0..59,
frames 0..fps-1`). -/
abbrev ValidTC (fps : Nat) (s : SysState) : Prop :=
  s.frameCount < fps ∧ s.secondCount < 60 ∧ s.minuteCount < 60 ∧ s.hourCount < 24

/-- Position of a state in the full fps-per-second 24-hour cycle. -/
def toIndex (fps : Nat) (s : SysState) : Nat :=
  ((s.hourCount * 60 + s.minuteCount) * 60 + s.secondCount) * fps + s.frameCount

/-- Seconds elapsed since 00:00:00 of the counter's day. -/
def secOfDay (s : SysState) : Nat :=
  (s.hourCount * 60 + s.minuteCount) * 60 + s.secondCount

/-- Minutes elapsed since 00:00 of the counter's day. -/
def minOfDay (s : SysState) : Nat :=
  s.hourCount * 60 + s.minuteCount

section Helpers

/-- The tag-match guard of the receive handler is unsatisfiable: `b &&& 0xF0`
has a clear low bit while `0xF1` has it set. -/
theorem and_f0_ne_f1 (b : Nat) : b &&& 0xF0 ≠ 0xF1 := by
  intro h
  have h1 : (b &&& 0xF0) &&& 1 = 0 := by
    rw [Nat.and_assoc]
    norm_num
  rw [h] at h1
  norm_num at h1

/-- With the guard dead, one receive-handler invocation is the identity. -/
theorem usart_rx_eq_self (s : SysState) (b : Nat) : USART_RX_vect s b = s := by
  unfold USART_RX_vect MIDI_TIME_CODE_QUARTER_FRAME
  rw [if_neg (and_f0_ne_f1 b)]

/-- Feeding any byte list through the receive handler is the identity. -/
theorem foldl_usart_rx_eq_self (s : SysState) (bs : List Nat) :
    List.foldl USART_RX_vect s bs = s := by
  induction bs with
  | nil => rfl
  | cons b bs ih => rw [List.foldl_cons, usart_rx_eq_self]; exact ih

/-- While `clockPaused`, the fast-tick handler is the identity. -/
theorem tick_of_paused (fps : Nat) (s : SysState) (h : s.clockPaused = true) :
    TIMER1_COMPA_vect fps s = s := by
  unfold TIMER1_COMPA_vect
  rw [if_neg]
  intro hc
  rw [h] at hc
  simp at hc

/-- While `clockPaused`, any number of fast ticks is the identity. -/
theorem iterate_tick_of_paused (fps : Nat) (s : SysState) (n : Nat)
    (h : s.clockPaused = true) : (TIMER1_COMPA_vect fps)^[n] s = s := by
  induction n with
  | zero => rfl
  | succ n ih => rw [Function.iterate_succ_apply', ih, tick_of_paused fps s h]

end Helpers

/-- Claim C1 (code_bug evaluation): the byte sequence produced by
`sendMTCQuarterFrame` for `{h=1, m=2, s=3, f=4}`, fed byte for byte into the
receive handler of a freshly booted receiver, leaves every counter field at 0:
the receiver ignores all sixteen bytes (each fails the `(b & 0xF0) == 0xF1`
tag guard), so it does not reproduce `{1, 2, 3, 4}` as the round-trip law
requires. -/
theorem roundTrip_fresh_receiver_unchanged :
    List.foldl USART_RX_vect bootState (sendMTCQuarterFrame tc1234State).midiOut
      = bootState
    ∧ tcOf (List.foldl USART_RX_vect bootState
        (sendMTCQuarterFrame tc1234State).midiOut) = (0, 0, 0, 0)
    ∧ tcOf bootState ≠ tcOf tc1234State := by
  refine ⟨?_, ?_, ?_⟩ <;> decide

/-- Claim C2 (code_bug evaluation): a slot-7 quarter-frame message per the wire
format — tag byte `0xF7` followed by its data byte — triggers no reassembly at
all: both bytes fail the dead tag guard, every slot and counter field is left
unchanged and `clockStarted` stays false, where the claim (and the handler's
own comments) require exactly one reassembly and `clockStarted = true`. -/
theorem slot7_message_ignored :
    USART_RX_vect (USART_RX_vect bootState 0xF7) 0x00 = bootState
    ∧ (USART_RX_vect (USART_RX_vect bootState 0xF7) 0x00).clockStarted = false := by
  refine ⟨?_, ?_⟩ <;> decide

/-- Claim C3: for every input byte value `b` in `0..255`, one invocation of the
USART receive handler on `b` leaves the entire program state unchanged — no
assembly slot is written, no reassembly occurs, `clockStarted` is never set —
because the guard `(b & 0xF0) == 0xF1` compares a value with cleared low nibble
against `0xF1` and is unsatisfiable. -/
theorem usart_rx_no_op (s : SysState) (b : Nat) (hb : b < 256) :
    USART_RX_vect s b = s :=
  usart_rx_eq_self s b

/-- Witness for `usart_rx_no_op` at `b = 0xF1` on the boot state. -/
theorem usart_rx_no_op_witness :
    (0xF1 : Nat) < 256 ∧ USART_RX_vect bootState 0xF1 = bootState :=
  ⟨by decide, usart_rx_no_op bootState 0xF1 (by decide)⟩

/-- Claim C4 (counterexample): from a Running state, the stop input yields
`TRANSPORT_PAUSED`, not `TRANSPORT_STOPPED` — "Running --stop--> Stopped" is
not a valid single transition of the code's transport step. -/
theorem running_stop_goes_paused_not_stopped :
    (loopStep false true
        { bootState with transportState := TRANSPORT_RUNNING
                       , clockStarted := true }).transportState = TRANSPORT_PAUSED
    ∧ ¬ (loopStep false true
        { bootState with transportState := TRANSPORT_RUNNING
                       , clockStarted := true }).transportState = TRANSPORT_STOPPED := by
  refine ⟨?_, ?_⟩ <;> decide

/-- Claim C4 (amended): the transport step satisfies
Stopped --start--> Running, Running --stop/pause--> Paused,
Paused --start (resume)--> Running, Paused --stop--> Stopped; the stop input
from Running pauses (Stopped is only reached from Running via Paused, by a
second stop); and no input other than start (stop alone, or no input) causes a
transition out of Stopped. -/
theorem transport_transitions (s1 s2 s3 : SysState)
    (h1 : s1.transportState = TRANSPORT_STOPPED)
    (h2 : s2.transportState = TRANSPORT_RUNNING)
    (h3 : s3.transportState = TRANSPORT_PAUSED) :
    (loopStep true false s1).transportState = TRANSPORT_RUNNING
    ∧ (loopStep false true s2).transportState = TRANSPORT_PAUSED
    ∧ (loopStep true false s3).transportState = TRANSPORT_RUNNING
    ∧ (loopStep false true s3).transportState = TRANSPORT_STOPPED
    ∧ (loopStep false true s1).transportState = TRANSPORT_STOPPED
    ∧ (loopStep false false s1).transportState = TRANSPORT_STOPPED := by
  unfold loopStep TRANSPORT_STOPPED TRANSPORT_RUNNING TRANSPORT_PAUSED at *
  refine ⟨?_, ?_, ?_, ?_, ?_, ?_⟩ <;>
    simp [h1, h2, h3, sendMTCQuarterFrame, sendMIDIByte]

/-- Witness for `transport_transitions` on concrete Stopped / Running / Paused
states. -/
theorem transport_transitions_witness :
    (loopStep true false bootState).transportState = TRANSPORT_RUNNING
    ∧ (loopStep false true
        { bootState with transportState := TRANSPORT_RUNNING
                       , clockStarted := true }).transportState = TRANSPORT_PAUSED
    ∧ (loopStep true false
        { bootState with transportState := TRANSPORT_PAUSED
                       , clockPaused := true }).transportState = TRANSPORT_RUNNING
    ∧ (loopStep false true
        { bootState with transportState := TRANSPORT_PAUSED
                       , clockPaused := true }).transportState = TRANSPORT_STOPPED
    ∧ (loopStep false true bootState).transportState = TRANSPORT_STOPPED
    ∧ (loopStep false false bootState).transportState = TRANSPORT_STOPPED :=
  transport_transitions bootState
    { bootState with transportState := TRANSPORT_RUNNING, clockStarted := true }
    { bootState with transportState := TRANSPORT_PAUSED, clockPaused := true }
    rfl rfl rfl

/-- Claim C8 (counterexample): the first emitted message is the frames-low
message, slot index 0, but its tag byte is `0xF1`, whose low nibble is 1, not
the slot index 0 — the messages are not each tagged with their own slot index
(`0xF1 | i` collapses even slots onto odd tags). -/
theorem first_tag_byte_not_slot_zero :
    (sendMTCQuarterFrame bootState).midiOut.getD 0 0 = 0xF1
    ∧ ¬ ((sendMTCQuarterFrame bootState).midiOut.getD 0 0 &&& 0x0F = 0) := by
  refine ⟨?_, ?_⟩ <;> decide

/-- Claim C8 (amended): one invocation of `sendMTCQuarterFrame` appends exactly
eight tag/data byte pairs, in the fixed order frames-low, frames-high,
seconds-low, seconds-high, minutes-low, minutes-high, hours-low, hours-high;
the tag of pair `i` is `0xF1 | i`, so the pairs carry tags
F1, F1, F3, F3, F5, F5, F7, F7 (even slots share the following odd slot's tag
rather than carrying their own 4-bit index); the low messages carry the field's
low nibble (for hours its low five bits), and the high messages carry the
masked value shifted right by 4 — identically 0 for frames, seconds and
minutes, and bit 4 of hours for the last pair. -/
theorem mtc_output_bytes (s : SysState) :
    (sendMTCQuarterFrame s).midiOut = s.midiOut ++
      [0xF1, s.frameCount &&& 0x0F, 0xF1, 0,
       0xF3, s.secondCount &&& 0x0F, 0xF3, 0,
       0xF5, s.minuteCount &&& 0x0F, 0xF5, 0,
       0xF7, s.hourCount &&& 0x1F, 0xF7, (s.hourCount &&& 0x1F) >>> 4] := by
  have hnib : ∀ x : Nat, (x &&& 0x0F) >>> 4 = 0 := by
    intro x
    have hlt : x &&& 0x0F < 16 := Nat.lt_of_le_of_lt (Nat.and_le_right) (by norm_num)
    rw [Nat.shiftRight_eq_div_pow]
    exact Nat.div_eq_of_lt (by norm_num at hlt ⊢; omega)
  simp [sendMTCQuarterFrame, sendMIDIByte, MIDI_TIME_CODE_QUARTER_FRAME, hnib]

section LevelHelpers

/-- The two branches of the source's level write agree with selecting by
`Nat.testBit`: emitting `lowLevel` when `(x >>> k) &&& 1 = 0` and `highLevel`
otherwise is the same as emitting `highLevel` exactly when bit `k` of `x` is
set. -/
theorem level_of_bit (x k : Nat) :
    (if (x >>> k) &&& 1 = 0 then lowLevel else highLevel) =
      (if Nat.testBit x k then highLevel else lowLevel) := by
  rw [Nat.and_one_is_mod, Nat.testBit_to_div_mod, Nat.shiftRight_eq_div_pow]
  rcases Nat.mod_two_eq_zero_or_one (x / 2 ^ k) with h | h <;> simp [h]

end LevelHelpers

/-- Claim C6: on every fast tick with cursor value `c` in `[0,80)`, the emitted
level is selected by: for `c` in `[0,32)` bit `c % 4` of `frameCount`, for
`[32,40)` bit `c - 32` of `secondCount`, for `[40,48)` bit `c - 40` of
`minuteCount`, for `[48,80)` bit `c - 48` of `hourCount`; a bit value of 1
selects `highLevel` and 0 selects `lowLevel`, one single level write for the
whole bit cell. -/
theorem emitted_level_matches_selected_bit (s : SysState) (h : s.bitCount < 80) :
    (setLTCLevel s).OCR2A =
      if claimSelectedBit s.bitCount s.hourCount s.minuteCount s.secondCount s.frameCount
      then highLevel else lowLevel := by
  unfold setLTCLevel claimSelectedBit
  rw [if_pos h]
  dsimp only
  by_cases h32 : s.bitCount < 32
  · simp only [if_pos h32]
    exact level_of_bit _ _
  · simp only [if_neg h32]
    by_cases h40 : s.bitCount < 40
    · simp only [if_pos h40]
      exact level_of_bit _ _
    · simp only [if_neg h40]
      by_cases h48 : s.bitCount < 48
      · simp only [if_pos h48]
        exact level_of_bit _ _
      · simp only [if_neg h48]
        exact level_of_bit _ _

/-- Witness for `emitted_level_matches_selected_bit`: cursor 0 with
`frameCount = 1` emits the high level (bit 0 of frames is set). -/
theorem emitted_level_matches_selected_bit_witness :
    (setLTCLevel { bootState with frameCount := 1 }).OCR2A = highLevel :=
  (emitted_level_matches_selected_bit { bootState with frameCount := 1 }
    (by decide)).trans (by decide)

/-- Claim C9: while `clockPaused` is true, any finite repetition of fast-tick
invocations leaves all four timecode counter fields and the bit cursor
unchanged (the tick handler's guard makes it the identity). -/
theorem paused_ticks_freeze_counters_and_cursor (fps : Nat) (s : SysState)
    (n : Nat) (h : s.clockPaused = true) :
    ((TIMER1_COMPA_vect fps)^[n] s).hourCount = s.hourCount
    ∧ ((TIMER1_COMPA_vect fps)^[n] s).minuteCount = s.minuteCount
    ∧ ((TIMER1_COMPA_vect fps)^[n] s).secondCount = s.secondCount
    ∧ ((TIMER1_COMPA_vect fps)^[n] s).frameCount = s.frameCount
    ∧ ((TIMER1_COMPA_vect fps)^[n] s).bitCount = s.bitCount := by
  rw [iterate_tick_of_paused fps s n h]
  exact ⟨rfl, rfl, rfl, rfl, rfl⟩

/-- Witness for `paused_ticks_freeze_counters_and_cursor`: five ticks on a
paused boot state leave the cursor at 0. -/
theorem paused_ticks_freeze_counters_and_cursor_witness :
    ((TIMER1_COMPA_vect 30)^[5] { bootState with clockPaused := true }).bitCount
      = ({ bootState with clockPaused := true } : SysState).bitCount :=
  (paused_ticks_freeze_counters_and_cursor 30
    { bootState with clockPaused := true } 5 rfl).2.2.2.2

/-- Claim C10 (counterexample): a reachable paused state — boot, start button,
one fast tick (which emits the low level of bit 0), then the stop button (pause
from Running) — holds the line-level output at `lowLevel` (44), not at the
quiescent `groundLevel` (63): pausing does not return the output to ground. -/
theorem pause_mid_frame_holds_bit_level :
    (loopStep false true
      (TIMER1_COMPA_vect 30 (loopStep true false bootState))).clockPaused = true
    ∧ (loopStep false true
        (TIMER1_COMPA_vect 30 (loopStep true false bootState))).transportState
        = TRANSPORT_PAUSED
    ∧ (loopStep false true
        (TIMER1_COMPA_vect 30 (loopStep true false bootState))).OCR2A = lowLevel
    ∧ ¬ (loopStep false true
        (TIMER1_COMPA_vect 30 (loopStep true false bootState))).OCR2A = groundLevel := by
  refine ⟨?_, ?_, ?_, ?_⟩ <;> decide

/-- Claim C10 (amended): the pause transition from Running leaves the
line-level output register exactly where it was — `OCR2A` keeps the value it
had when the pause took effect (the level of the last emitted bit, or ground
only if the previous tick happened to be the frame-boundary reset) — and every
subsequent fast tick while paused leaves it unchanged; pausing never forces the
output to the ground level. -/
theorem pause_preserves_output_level (fps : Nat) (s : SysState) (n : Nat)
    (h : s.transportState = TRANSPORT_RUNNING) :
    (loopStep false true s).OCR2A = s.OCR2A
    ∧ (loopStep false true s).clockPaused = true
    ∧ ((TIMER1_COMPA_vect fps)^[n] (loopStep false true s)).OCR2A = s.OCR2A := by
  have h1 : loopStep false true s =
      { s with transportState := TRANSPORT_PAUSED, clockPaused := true } := by
    unfold loopStep
    simp [h, TRANSPORT_RUNNING, TRANSPORT_PAUSED]
  rw [h1]
  refine ⟨rfl, rfl, ?_⟩
  rw [iterate_tick_of_paused fps _ n rfl]

/-- Witness for `pause_preserves_output_level`: pausing a running state whose
output sits at 44 keeps it at 44 across four further ticks. -/
theorem pause_preserves_output_level_witness :
    (loopStep false true
      { bootState with transportState := TRANSPORT_RUNNING
                     , clockStarted := true, OCR2A := 44 }).OCR2A
      = ({ bootState with transportState := TRANSPORT_RUNNING
                        , clockStarted := true, OCR2A := 44 } : SysState).OCR2A
    ∧ (loopStep false true
        { bootState with transportState := TRANSPORT_RUNNING
                       , clockStarted := true, OCR2A := 44 }).clockPaused = true
    ∧ ((TIMER1_COMPA_vect 30)^[4] (loopStep false true
        { bootState with transportState := TRANSPORT_RUNNING
                       , clockStarted := true, OCR2A := 44 })).OCR2A
      = ({ bootState with transportState := TRANSPORT_RUNNING
                        , clockStarted := true, OCR2A := 44 } : SysState).OCR2A :=
  pause_preserves_output_level 30
    { bootState with transportState := TRANSPORT_RUNNING
                   , clockStarted := true, OCR2A := 44 } 4 rfl

section TickHelpers

/-- `timeUpdate` writes only the four counter fields. -/
theorem timeUpdate_shape (fps : Nat) (s : SysState) :
    (timeUpdate fps s).bitCount = s.bitCount
    ∧ (timeUpdate fps s).currentBit = s.currentBit
    ∧ (timeUpdate fps s).lastLevel = s.lastLevel
    ∧ (timeUpdate fps s).clockStarted = s.clockStarted
    ∧ (timeUpdate fps s).clockPaused = s.clockPaused
    ∧ (timeUpdate fps s).transportState = s.transportState
    ∧ (timeUpdate fps s).mtcQuarterFrame = s.mtcQuarterFrame
    ∧ (timeUpdate fps s).OCR2A = s.OCR2A
    ∧ (timeUpdate fps s).midiOut = s.midiOut := by
  unfold timeUpdate
  split_ifs <;> exact ⟨rfl, rfl, rfl, rfl, rfl, rfl, rfl, rfl, rfl⟩

/-- `setLTCLevel` never writes the counter fields or the transport flags. -/
theorem setLTCLevel_tc (s : SysState) :
    tcOf (setLTCLevel s) = tcOf s
    ∧ (setLTCLevel s).clockStarted = s.clockStarted
    ∧ (setLTCLevel s).clockPaused = s.clockPaused := by
  unfold setLTCLevel tcOf
  split_ifs <;> exact ⟨rfl, rfl, rfl⟩

/-- The cursor after one `setLTCLevel`: increment below 80, reset otherwise. -/
theorem setLTCLevel_bitCount (s : SysState) :
    (setLTCLevel s).bitCount = if s.bitCount < 80 then s.bitCount + 1 else 0 := by
  unfold setLTCLevel
  split_ifs <;> rfl

/-- The counter fields produced by `timeUpdate` depend only on the counter
fields of its input. -/
theorem timeUpdate_tcOf_congr (fps : Nat) (a b : SysState)
    (h : tcOf a = tcOf b) : tcOf (timeUpdate fps a) = tcOf (timeUpdate fps b) := by
  cases a
  cases b
  simp only [tcOf, Prod.mk.injEq] at h
  obtain ⟨rfl, rfl, rfl, rfl⟩ := h
  unfold timeUpdate tcOf
  dsimp only
  split_ifs <;> rfl

/-- The tick handler never changes the transport flags. -/
theorem tick_flags (fps : Nat) (s : SysState) :
    (TIMER1_COMPA_vect fps s).clockStarted = s.clockStarted
    ∧ (TIMER1_COMPA_vect fps s).clockPaused = s.clockPaused := by
  unfold TIMER1_COMPA_vect
  by_cases hg : s.clockPaused = false ∧ s.clockStarted = true
  · rw [if_pos hg]
    dsimp only
    by_cases h80 : (setLTCLevel s).bitCount = 80
    · rw [if_pos h80]
      constructor
      · rw [(timeUpdate_shape fps _).2.2.2.1, (setLTCLevel_tc s).2.1]
      · rw [(timeUpdate_shape fps _).2.2.2.2.1, (setLTCLevel_tc s).2.2]
    · rw [if_neg h80]
      exact ⟨(setLTCLevel_tc s).2.1, (setLTCLevel_tc s).2.2⟩
  · rw [if_neg hg]
    exact ⟨rfl, rfl⟩

/-- Cursor evolution over one enabled tick. -/
theorem tick_bitCount (fps : Nat) (s : SysState) (hs : s.clockStarted = true)
    (hp : s.clockPaused = false) :
    (TIMER1_COMPA_vect fps s).bitCount =
      if s.bitCount < 80 then s.bitCount + 1 else 0 := by
  unfold TIMER1_COMPA_vect
  rw [if_pos ⟨hp, hs⟩]
  dsimp only
  have hsb := setLTCLevel_bitCount s
  by_cases h80 : (setLTCLevel s).bitCount = 80
  · rw [if_pos h80, (timeUpdate_shape fps (setLTCLevel s)).1, hsb]
  · rw [if_neg h80, hsb]

/-- Counter evolution over one enabled tick: `timeUpdate` fires exactly on the
tick that takes the cursor from 79 to 80. -/
theorem tick_tcOf (fps : Nat) (s : SysState) (hs : s.clockStarted = true)
    (hp : s.clockPaused = false) :
    tcOf (TIMER1_COMPA_vect fps s) =
      if s.bitCount = 79 then tcOf (timeUpdate fps s) else tcOf s := by
  unfold TIMER1_COMPA_vect
  rw [if_pos ⟨hp, hs⟩]
  dsimp only
  have hsb := setLTCLevel_bitCount s
  by_cases h80 : (setLTCLevel s).bitCount = 80
  · have h79 : s.bitCount = 79 := by
      rw [hsb] at h80
      split_ifs at h80 <;> omega
    rw [if_pos h80, if_pos h79]
    exact timeUpdate_tcOf_congr fps _ _ (setLTCLevel_tc s).1
  · have h79 : s.bitCount ≠ 79 := by
      intro hh
      rw [hsb, if_pos (by omega : s.bitCount < 80), hh] at h80
      exact h80 rfl
    rw [if_neg h80, if_neg h79]
    exact (setLTCLevel_tc s).1

/-- Running `k` enabled ticks from cursor position `c` with `c + k ≤ 79`
advances the cursor to `c + k` without touching the counters or flags. -/
theorem tick_run (fps : Nat) (s : SysState) (hs : s.clockStarted = true)
    (hp : s.clockPaused = false) :
    ∀ k, s.bitCount + k ≤ 79 →
      ((TIMER1_COMPA_vect fps)^[k] s).bitCount = s.bitCount + k
      ∧ tcOf ((TIMER1_COMPA_vect fps)^[k] s) = tcOf s
      ∧ ((TIMER1_COMPA_vect fps)^[k] s).clockStarted = true
      ∧ ((TIMER1_COMPA_vect fps)^[k] s).clockPaused = false := by
  intro k
  induction k with
  | zero => intro _; exact ⟨rfl, rfl, hs, hp⟩
  | succ k ih =>
    intro hk
    obtain ⟨ib, itc, istarted, ipaused⟩ := ih (by omega)
    rw [Function.iterate_succ_apply']
    refine ⟨?_, ?_, ?_, ?_⟩
    · rw [tick_bitCount fps _ istarted ipaused, ib,
        if_pos (by omega : s.bitCount + k < 80)]
      omega
    · rw [tick_tcOf fps _ istarted ipaused, ib,
        if_neg (by omega : ¬ s.bitCount + k = 79)]
      exact itc
    · rw [(tick_flags fps _).1]
      exact istarted
    · rw [(tick_flags fps _).2]
      exact ipaused

end TickHelpers

/-- Claim C5 (counterexample): from a started, unpaused state at cursor 79, one
fast tick leaves the cursor at 80 — not wrapped to 0 — and yet the counter is
mutated on that very tick (`frameCount` goes 0 to 1): the wrap to 0 does not
happen on the tick at which the cursor reaches 80, and `timeUpdate` fires on a
tick at which the cursor does not wrap to 0. -/
theorem update_without_wrap_at_79 :
    (TIMER1_COMPA_vect 30
      { bootState with clockStarted := true, bitCount := 79 }).bitCount = 80
    ∧ (TIMER1_COMPA_vect 30
        { bootState with clockStarted := true, bitCount := 79 }).frameCount = 1
    ∧ ¬ (TIMER1_COMPA_vect 30
        { bootState with clockStarted := true, bitCount := 79 }).bitCount = 0 := by
  refine ⟨?_, ?_, ?_⟩ <;> decide

/-- Claim C5 (amended): while the clock is started and not paused, one fast
tick increments the cursor when it is below 80 and wraps it to 0 on the tick
after it has reached 80 (an 81-tick cycle: 80 bit cells plus one ground cell);
`timeUpdate` is invoked exactly on the tick that takes the cursor from 79 to
80 and on no other tick; and from a cursor at 0, 81 ticks return the cursor to
0 having applied exactly one `timeUpdate` to the counters. -/
theorem cursor_and_update_dynamics (fps : Nat) (s : SysState)
    (hs : s.clockStarted = true) (hp : s.clockPaused = false) :
    (TIMER1_COMPA_vect fps s).bitCount =
      (if s.bitCount < 80 then s.bitCount + 1 else 0)
    ∧ tcOf (TIMER1_COMPA_vect fps s) =
        (if s.bitCount = 79 then tcOf (timeUpdate fps s) else tcOf s)
    ∧ (s.bitCount = 0 →
        ((TIMER1_COMPA_vect fps)^[81] s).bitCount = 0
        ∧ tcOf ((TIMER1_COMPA_vect fps)^[81] s) = tcOf (timeUpdate fps s)) := by
  refine ⟨tick_bitCount fps s hs hp, tick_tcOf fps s hs hp, ?_⟩
  intro h0
  obtain ⟨b79, tc79, s79, p79⟩ := tick_run fps s hs hp 79 (by omega)
  have h80eq : (TIMER1_COMPA_vect fps)^[80] s =
      TIMER1_COMPA_vect fps ((TIMER1_COMPA_vect fps)^[79] s) :=
    Function.iterate_succ_apply' _ _ _
  have h81eq : (TIMER1_COMPA_vect fps)^[81] s =
      TIMER1_COMPA_vect fps ((TIMER1_COMPA_vect fps)^[80] s) :=
    Function.iterate_succ_apply' _ _ _
  have b80 : ((TIMER1_COMPA_vect fps)^[80] s).bitCount = 80 := by
    rw [h80eq, tick_bitCount fps _ s79 p79, b79, h0]
    norm_num
  have tc80 : tcOf ((TIMER1_COMPA_vect fps)^[80] s) = tcOf (timeUpdate fps s) := by
    rw [h80eq, tick_tcOf fps _ s79 p79, b79, h0, if_pos (by norm_num)]
    exact timeUpdate_tcOf_congr fps _ _ tc79
  have s80 : ((TIMER1_COMPA_vect fps)^[80] s).clockStarted = true := by
    rw [h80eq, (tick_flags fps _).1]
    exact s79
  have p80 : ((TIMER1_COMPA_vect fps)^[80] s).clockPaused = false := by
    rw [h80eq, (tick_flags fps _).2]
    exact p79
  constructor
  · rw [h81eq, tick_bitCount fps _ s80 p80, b80, if_neg (by omega)]
  · rw [h81eq, tick_tcOf fps _ s80 p80, b80, if_neg (by omega)]
    exact tc80

/-- Witness for `cursor_and_update_dynamics` on a started boot state: one tick
moves the cursor to 1, and 81 ticks return it to 0 with one counter update. -/
theorem cursor_and_update_dynamics_witness :
    (TIMER1_COMPA_vect 30 { bootState with clockStarted := true }).bitCount = 1
    ∧ ((TIMER1_COMPA_vect 30)^[81] { bootState with clockStarted := true }).bitCount = 0
    ∧ tcOf ((TIMER1_COMPA_vect 30)^[81] { bootState with clockStarted := true })
        = tcOf (timeUpdate 30 { bootState with clockStarted := true }) := by
  have h := cursor_and_update_dynamics 30 { bootState with clockStarted := true } rfl rfl
  exact ⟨h.1.trans (by decide), (h.2.2 rfl).1, (h.2.2 rfl).2⟩

section PeriodHelpers

/-- `timeUpdate` preserves validity of the counter fields. -/
theorem timeUpdate_valid (fps : Nat) (s : SysState) (h0 : 0 < fps)
    (hv : ValidTC fps s) : ValidTC fps (timeUpdate fps s) := by
  obtain ⟨hf, hsec, hm, hh⟩ := hv
  unfold timeUpdate
  split_ifs <;> refine ⟨?_, ?_, ?_, ?_⟩ <;> (dsimp only; omega)

/-- A valid state's cycle position is below the cycle length. -/
theorem toIndex_lt (fps : Nat) (s : SysState)
    (hfps : fps = 24 ∨ fps = 25 ∨ fps = 30) (hv : ValidTC fps s) :
    toIndex fps s < 86400 * fps := by
  obtain ⟨hf, hsec, hm, hh⟩ := hv
  unfold toIndex
  rcases hfps with rfl | rfl | rfl <;> omega

/-- One `timeUpdate` advances the cycle position by 1, wrapping at the cycle
length. -/
theorem toIndex_timeUpdate (fps : Nat) (s : SysState)
    (hfps : fps = 24 ∨ fps = 25 ∨ fps = 30) (hv : ValidTC fps s) :
    toIndex fps (timeUpdate fps s) =
      if toIndex fps s + 1 = 86400 * fps then 0 else toIndex fps s + 1 := by
  obtain ⟨hf, hsec, hm, hh⟩ := hv
  rcases hfps with rfl | rfl | rfl <;>
    (unfold timeUpdate toIndex; split_ifs <;> (try dsimp only; try omega))

/-- Iterating `timeUpdate` preserves validity and adds the iteration count to
the cycle position, modulo the cycle length. -/
theorem timeUpdate_iterate (fps : Nat) (s : SysState)
    (hfps : fps = 24 ∨ fps = 25 ∨ fps = 30) (hv : ValidTC fps s) (k : Nat) :
    ValidTC fps ((timeUpdate fps)^[k] s)
    ∧ toIndex fps ((timeUpdate fps)^[k] s) =
        (toIndex fps s + k) % (86400 * fps) := by
  have h0 : 0 < fps := by rcases hfps with rfl | rfl | rfl <;> norm_num
  induction k with
  | zero =>
    refine ⟨hv, ?_⟩
    have hlt := toIndex_lt fps s hfps hv
    simp only [Function.iterate_zero_apply]
    rcases hfps with rfl | rfl | rfl <;> omega
  | succ k ih =>
    obtain ⟨ihv, ihi⟩ := ih
    rw [Function.iterate_succ_apply']
    refine ⟨timeUpdate_valid fps _ h0 ihv, ?_⟩
    rw [toIndex_timeUpdate fps _ hfps ihv, ihi]
    rcases hfps with rfl | rfl | rfl <;> (split_ifs <;> omega)

/-- Iterating `timeUpdate` never touches the non-counter fields. -/
theorem timeUpdate_iterate_shape (fps : Nat) (s : SysState) (k : Nat) :
    ((timeUpdate fps)^[k] s).bitCount = s.bitCount
    ∧ ((timeUpdate fps)^[k] s).currentBit = s.currentBit
    ∧ ((timeUpdate fps)^[k] s).lastLevel = s.lastLevel
    ∧ ((timeUpdate fps)^[k] s).clockStarted = s.clockStarted
    ∧ ((timeUpdate fps)^[k] s).clockPaused = s.clockPaused
    ∧ ((timeUpdate fps)^[k] s).transportState = s.transportState
    ∧ ((timeUpdate fps)^[k] s).mtcQuarterFrame = s.mtcQuarterFrame
    ∧ ((timeUpdate fps)^[k] s).OCR2A = s.OCR2A
    ∧ ((timeUpdate fps)^[k] s).midiOut = s.midiOut := by
  induction k with
  | zero => exact ⟨rfl, rfl, rfl, rfl, rfl, rfl, rfl, rfl, rfl⟩
  | succ k ih =>
    obtain ⟨e1, e2, e3, e4, e5, e6, e7, e8, e9⟩ := ih
    rw [Function.iterate_succ_apply']
    have h := timeUpdate_shape fps ((timeUpdate fps)^[k] s)
    exact ⟨h.1.trans e1, h.2.1.trans e2, h.2.2.1.trans e3, h.2.2.2.1.trans e4,
      h.2.2.2.2.1.trans e5, h.2.2.2.2.2.1.trans e6, h.2.2.2.2.2.2.1.trans e7,
      h.2.2.2.2.2.2.2.1.trans e8, h.2.2.2.2.2.2.2.2.trans e9⟩

/-- A valid state's counter fields are recovered from its cycle position. -/
theorem fields_of_toIndex (fps : Nat) (s : SysState)
    (hfps : fps = 24 ∨ fps = 25 ∨ fps = 30) (hv : ValidTC fps s) :
    s.frameCount = toIndex fps s % fps
    ∧ s.secondCount = toIndex fps s / fps % 60
    ∧ s.minuteCount = toIndex fps s / (fps * 60) % 60
    ∧ s.hourCount = toIndex fps s / (fps * 3600) := by
  obtain ⟨hf, hsec, hm, hh⟩ := hv
  unfold toIndex
  rcases hfps with rfl | rfl | rfl <;> refine ⟨?_, ?_, ?_, ?_⟩ <;> omega

/-- The second-of-day of a valid state is its cycle position divided by fps. -/
theorem secOfDay_toIndex (fps : Nat) (s : SysState)
    (hfps : fps = 24 ∨ fps = 25 ∨ fps = 30) (hv : ValidTC fps s) :
    secOfDay s = toIndex fps s / fps := by
  obtain ⟨hf, hsec, hm, hh⟩ := hv
  unfold secOfDay toIndex
  rcases hfps with rfl | rfl | rfl <;> omega

/-- The minute-of-day of a valid state is its cycle position divided by
60 fps. -/
theorem minOfDay_toIndex (fps : Nat) (s : SysState)
    (hfps : fps = 24 ∨ fps = 25 ∨ fps = 30) (hv : ValidTC fps s) :
    minOfDay s = toIndex fps s / (fps * 60) := by
  obtain ⟨hf, hsec, hm, hh⟩ := hv
  unfold minOfDay toIndex
  rcases hfps with rfl | rfl | rfl <;> omega

end PeriodHelpers

/-- Claim C7 (counterexample): at 30 fps, from the valid state
`{h=1, m=2, s=3, f=4}`, applying `timeUpdate` 30 times advances seconds by 1
but leaves `frameCount` at its starting value 4 — it does not reset frames
to 0. -/
theorem fps_steps_do_not_reset_frames :
    ((timeUpdate 30)^[30] tc1234State).secondCount = 4
    ∧ ((timeUpdate 30)^[30] tc1234State).frameCount = 4
    ∧ ¬ ((timeUpdate 30)^[30] tc1234State).frameCount = 0 := by
  refine ⟨?_, ?_, ?_⟩ <;> decide

/-- Claim C7 (amended): for every `fps` in `{24, 25, 30}` and every valid
state, applying `timeUpdate` `fps` times advances the time of day by exactly
one second (mod 24 h, with carries) while returning `frameCount` to its
starting value (in particular to 0 when it starts at 0, not in general);
`fps * 60` applications advance the minute of day by exactly one (mod 24 h)
leaving seconds and frames at their starting values; and `fps * 86400`
applications (a full 24-hour cycle) return the identical state. -/
theorem timeUpdate_period_laws (fps : Nat) (s : SysState)
    (hfps : fps = 24 ∨ fps = 25 ∨ fps = 30) (hv : ValidTC fps s) :
    ((timeUpdate fps)^[fps] s).frameCount = s.frameCount
    ∧ secOfDay ((timeUpdate fps)^[fps] s) = (secOfDay s + 1) % 86400
    ∧ ((timeUpdate fps)^[fps * 60] s).frameCount = s.frameCount
    ∧ ((timeUpdate fps)^[fps * 60] s).secondCount = s.secondCount
    ∧ minOfDay ((timeUpdate fps)^[fps * 60] s) = (minOfDay s + 1) % 1440
    ∧ (timeUpdate fps)^[fps * 86400] s = s := by
  have hiF := timeUpdate_iterate fps s hfps hv fps
  have hiM := timeUpdate_iterate fps s hfps hv (fps * 60)
  have hiN := timeUpdate_iterate fps s hfps hv (fps * 86400)
  have hlt := toIndex_lt fps s hfps hv
  have hfields := fields_of_toIndex fps s hfps hv
  have hfieldsF := fields_of_toIndex fps _ hfps hiF.1
  have hfieldsM := fields_of_toIndex fps _ hfps hiM.1
  have hfieldsN := fields_of_toIndex fps _ hfps hiN.1
  refine ⟨?_, ?_, ?_, ?_, ?_, ?_⟩
  · rw [hfieldsF.1, hfields.1, hiF.2]
    rcases hfps with rfl | rfl | rfl <;> omega
  · rw [secOfDay_toIndex fps _ hfps hiF.1, secOfDay_toIndex fps s hfps hv, hiF.2]
    rcases hfps with rfl | rfl | rfl <;> omega
  · rw [hfieldsM.1, hfields.1, hiM.2]
    rcases hfps with rfl | rfl | rfl <;> omega
  · rw [hfieldsM.2.1, hfields.2.1, hiM.2]
    rcases hfps with rfl | rfl | rfl <;> omega
  · rw [minOfDay_toIndex fps _ hfps hiM.1, minOfDay_toIndex fps s hfps hv, hiM.2]
    rcases hfps with rfl | rfl | rfl <;> omega
  · have hidx : toIndex fps ((timeUpdate fps)^[fps * 86400] s) = toIndex fps s := by
      rw [hiN.2]
      rcases hfps with rfl | rfl | rfl <;> omega
    obtain ⟨e1, e2, e3, e4, e5, e6, e7, e8, e9⟩ :=
      timeUpdate_iterate_shape fps s (fps * 86400)
    have hfr : ((timeUpdate fps)^[fps * 86400] s).frameCount = s.frameCount := by
      rw [hfieldsN.1, hfields.1, hidx]
    have hsec : ((timeUpdate fps)^[fps * 86400] s).secondCount = s.secondCount := by
      rw [hfieldsN.2.1, hfields.2.1, hidx]
    have hmin : ((timeUpdate fps)^[fps * 86400] s).minuteCount = s.minuteCount := by
      rw [hfieldsN.2.2.1, hfields.2.2.1, hidx]
    have hhr : ((timeUpdate fps)^[fps * 86400] s).hourCount = s.hourCount := by
      rw [hfieldsN.2.2.2, hfields.2.2.2, hidx]
    exact SysState.ext hhr hmin hsec hfr e1 e2 e3 e4 e5 e6 e7 e8 e9

/-- Witness for `timeUpdate_period_laws` at 30 fps on the boot state. -/
theorem timeUpdate_period_laws_witness :
    ((timeUpdate 30)^[30] bootState).frameCount = bootState.frameCount
    ∧ secOfDay ((timeUpdate 30)^[30] bootState) = (secOfDay bootState + 1) % 86400
    ∧ ((timeUpdate 30)^[30 * 60] bootState).frameCount = bootState.frameCount
    ∧ ((timeUpdate 30)^[30 * 60] bootState).secondCount = bootState.secondCount
    ∧ minOfDay ((timeUpdate 30)^[30 * 60] bootState) = (minOfDay bootState + 1) % 1440
    ∧ (timeUpdate 30)^[30 * 86400] bootState = bootState :=
  timeUpdate_period_laws 30 bootState (by decide) (by decide)

end SmpteClock
